import Mathlib

/-!
Verification of the memoized-secret comparator of the terraform-provider-azuredevops
repository.  The `tfhelper` file (src/unnamed/part_000) is embedded directly; the
`secretmemo` package it calls (realising SecretMemo / ChangeGate of the spec) is not
under src/, so its operations are modelled from the spec.

Conventions of the embedding:
  * Go's log output is modelled as an explicit `List String` of formatted lines.
  * A Go panic (failed type assertion `x.(string)`) is modelled as `none` in an
    `Option` result; a `some` result means the function returned normally.
  * The salted randomness consumed by the hashing primitive is passed as an explicit
    `salt : Nat` parameter: one fresh salt per hashing invocation.
-/

namespace AzDo

/-! ### Model of the terraform-plugin-sdk ResourceData boundary -/

/-- A value stored for a key in resource state, as seen through Go's dynamic typing:
either a string or some non-string value.  Absence of the key is `Option.none` at the
lookup, matching `d.Get` returning `nil` for a key that is not in the schema. -/
inductive AttrValue where
  | str : String → AttrValue
  | other : AttrValue
deriving DecidableEq

/-- Resource state as the diff/flatten helpers see it: attribute lookup plus the
`HasChange` flag per key. -/
structure ResourceData where
  attrs : String → Option AttrValue
  changedKeys : String → Bool

/-- Model of `d.Get k`: `none` when `k` is not present at all (Go returns `nil`). -/
def dGet (d : ResourceData) (k : String) : Option AttrValue :=
  d.attrs k

/-- Model of Go's unchecked type assertion `x.(string)`: succeeds only on a string
value; `none` models the panic on `nil` or a non-string value. -/
def typeAssertString : Option AttrValue → Option String
  | some (AttrValue.str s) => some s
  | _ => none

/-- Model of `d.Set k v` for a string value. -/
def dSet (d : ResourceData) (k v : String) : ResourceData :=
  ⟨fun k2 => if k2 = k then some (AttrValue.str v) else d.attrs k2, d.changedKeys⟩

/-- Model of `d.HasChange k`. -/
def hasChange (d : ResourceData) (k : String) : Bool :=
  d.changedKeys k

/-- The schema value types used by the helpers (`schema.TypeString` etc.). -/
inductive SchemaValueType where
  | TypeString
  | TypeBool
  | TypeInt
deriving DecidableEq

/-- The fields of `schema.Schema` that `GenerateSecreteMemoSchema` sets. -/
structure SchemaDef where
  type : SchemaValueType
  computed : Bool
  default : Option AttrValue
  description : String
  sensitive : Bool
deriving DecidableEq

/-! ### SecretMemo, modelled from the spec

The `secretmemo` package is not under src/ (only its callers in `tfhelper` are), so
`hash`, `verify` and `IsUpdating` below are modelled from the spec: a salted one-way
digest whose encoding carries its own salt, failing with `HashingFailed` when the
value exceeds the primitive's maximum input length (bcrypt's 72-byte bound), and a
`verify` that decodes the digest and fails with `MalformedDigest` on an
unrecognizable encoding.  Cryptographic one-wayness and the cost factor are outside
the scope of the model; only the relational input/output structure is kept. -/

/-- Error taxonomy of the spec. -/
inductive ErrorKind where
  | HashingFailed
  | MalformedDigest
deriving DecidableEq

/-- Decode the run of salt characters of a digest body: `x`s up to a `$`, then the
tag.  Returns the salt count and the tag characters. -/
def splitTag : List Char → Option (Nat × List Char)
  | [] => none
  | c :: rest =>
    if c = '$' then some (0, rest)
    else if c = 'x' then (splitTag rest).map (fun p => (p.1 + 1, p.2))
    else none

/-- Modelled from the spec: the digest is "an opaque, durable string token"
encoding its own salt (`$2a$` marker, unary salt, `$`, tag). -/
def encodeDigest (salt : Nat) (tag : String) : String :=
  String.mk ('$' :: '2' :: 'a' :: '$' :: (List.replicate salt 'x' ++ '$' :: tag.data))

/-- Decode a digest string back into its salt and tag; `none` means the string is
not a recognizable digest encoding. -/
def decodeDigest (s : String) : Option (Nat × String) :=
  match s.data with
  | '$' :: '2' :: 'a' :: '$' :: rest => (splitTag rest).map (fun p => (p.1, String.mk p.2))
  | _ => none

/-- Modelled from the spec: the hashing primitive's maximum input length (bcrypt's
72-byte bound), beyond which `hash` fails with `HashingFailed`. -/
def maxInputLen : Nat := 72

/-- Modelled from the spec: `hash(value) -> (SecretDigest, ErrorKind?)`, a salted
one-way digest; fails with `HashingFailed` if the primitive rejects the input
(value exceeds the maximum input length).  The salt is the explicit randomness of
one invocation. -/
def hash (v : String) (salt : Nat) : Except ErrorKind String :=
  if v.length > maxInputLen then Except.error ErrorKind.HashingFailed
  else Except.ok (encodeDigest salt v)

/-- Modelled from the spec: `verify(candidate, digest) -> (matches, ErrorKind?)`;
checks the candidate against the scheme embedded in the digest, failing with
`MalformedDigest` if the digest is not a recognizable encoding. -/
def verify (candidate dgst : String) : Except ErrorKind Bool :=
  match decodeDigest dgst with
  | none => Except.error ErrorKind.MalformedDigest
  | some p => Except.ok (p.2 == candidate)

/-! ### ChangeGate, modelled from the spec -/

/-- The spec's ChangeDecision record. -/
structure ChangeDecision where
  isChanged : Bool
  newDigest : String
  error : Option ErrorKind
deriving DecidableEq

/-- Recompute a digest for a changed value: on success a fresh digest, on failure
`isChanged` is still forced and no valid digest exists (empty digest, error set). -/
def rehashDecision (hashFn : String → Nat → Except ErrorKind String)
    (v : String) (salt : Nat) : ChangeDecision :=
  match hashFn v salt with
  | Except.ok d => ⟨true, d, none⟩
  | Except.error _ => ⟨true, "", some ErrorKind.HashingFailed⟩

/-- Modelled from the spec: ChangeGate's `evaluate`, parameterized over the hashing
and verification functions so that "does not invoke verify" and "no rehash" are
expressible as independence from those parameters.  An empty stored digest
short-circuits to changed; `MalformedDigest` from verify is absorbed and treated as
no prior record; a verify match keeps the stored digest unchanged; a mismatch or
hashing failure forces `isChanged = true`. -/
def evaluateGen (hashFn : String → Nat → Except ErrorKind String)
    (verifyFn : String → String → Except ErrorKind Bool)
    (v storedDigest : String) (salt : Nat) : ChangeDecision :=
  if storedDigest = "" then
    rehashDecision hashFn v salt
  else
    match verifyFn v storedDigest with
    | Except.error ErrorKind.MalformedDigest => rehashDecision hashFn v salt
    | Except.error ErrorKind.HashingFailed => ⟨true, "", some ErrorKind.HashingFailed⟩
    | Except.ok true => ⟨false, storedDigest, none⟩
    | Except.ok false => rehashDecision hashFn v salt

/-- Modelled from the spec: `evaluate(candidateValue, storedDigest) -> ChangeDecision`
with the concrete modelled primitives. -/
def evaluate (v storedDigest : String) (salt : Nat) : ChangeDecision :=
  evaluateGen hash verify v storedDigest salt

/-- Modelled from the spec: `secretmemo.IsUpdating(new, memo)` as called by the
`tfhelper` code, returning `(isUpdating, newMemo, err)` — the fields of the
ChangeDecision of `evaluate`. -/
def IsUpdating (new memo : String) (salt : Nat) : Bool × String × Option ErrorKind :=
  let d := evaluate new memo salt
  (d.isChanged, d.newDigest, d.error)

/-- Rendering of an error into the log line (`%s` of the swallowed error). -/
def errString : ErrorKind → String
  | ErrorKind.HashingFailed => "HashingFailed"
  | ErrorKind.MalformedDigest => "MalformedDigest"

instance {ε α : Type} [DecidableEq ε] [DecidableEq α] : DecidableEq (Except ε α)
  | Except.ok a, Except.ok b =>
    if h : a = b then isTrue (by rw [h]) else isFalse (by simp [h])
  | Except.error a, Except.error b =>
    if h : a = b then isTrue (by rw [h]) else isFalse (by simp [h])
  | Except.ok _, Except.error _ => isFalse (by simp)
  | Except.error _, Except.ok _ => isFalse (by simp)

/-! ### The tfhelper functions (src/unnamed/part_000) -/

/-- `DiffFuncSupressCaseSensitivity`: suppress case sensitivity when comparing
string values; model of Go's `strings.ToLower` as per-character lowercasing. -/
def goToLower (s : String) : String :=
  String.mk (s.data.map Char.toLower)

/-- `DiffFuncSupressCaseSensitivity(k, old, new, d)`: returns true iff the two
strings agree after lowercasing. -/
def DiffFuncSupressCaseSensitivity (k old new : String) (d : ResourceData) : Bool :=
  if goToLower old == goToLower new then true
  else false

/-- `calcSecretHashKey(secretKey)`. -/
def calcSecretHashKey (secretKey : String) : String :=
  secretKey ++ "_hash"

/-- `DiffFuncSupressSecretChanged(k, old, new, d)`: result is `none` on a panic of
the type assertion on `d.Get(memoKey)`, otherwise `some` of the returned Bool and
the emitted log lines.  On a swallowed hashing error the function logs and returns
`false` (do not suppress, i.e. treat as changed). -/
def DiffFuncSupressSecretChanged (k old new : String) (d : ResourceData)
    (salt : Nat) : Option (Bool × List String) :=
  let memoKey := calcSecretHashKey k
  match typeAssertString (dGet d memoKey) with
  | none => none
  | some memoValue =>
    let r := IsUpdating new memoValue salt
    let isUnchanged := !r.1
    match r.2.2 with
    | some e =>
      some (false, ["Change forced. Swallowing err while using secret hashing: "
        ++ errString e])
    | none =>
      some (isUnchanged,
        ["\nk: " ++ k ++ ", old: " ++ old ++ ", new: " ++ new ++ ", memoKey: "
          ++ memoKey ++ ", memoValue: " ++ memoValue ++ ", isUnchanged: "
          ++ (if isUnchanged then "true" else "false") ++ "\n"])

/-- `HelpFlattenSecret(d, secretKey)`: stores the hashed secret into state.
Result is `none` on a panic of a type assertion, otherwise `some` of the updated
state and the emitted log lines.  Note the unconditional `d.Set(hashKey, newHash)`
at the end, reached even when the hashing error was swallowed. -/
def HelpFlattenSecret (d : ResourceData) (secretKey : String)
    (salt : Nat) : Option (ResourceData × List String) :=
  if hasChange d secretKey = false then
    some (d, ["Secret key " ++ secretKey ++ " didn\x27t get updated."])
  else
    let hashKey := calcSecretHashKey secretKey
    match typeAssertString (dGet d secretKey) with
    | none => none
    | some newSecret =>
      match typeAssertString (dGet d hashKey) with
      | none => none
      | some oldHash =>
        let r := IsUpdating newSecret oldHash salt
        let newHash := r.2.1
        let errLog : List String :=
          match r.2.2 with
          | some e => ["Swallowing err while using secret hashing: " ++ errString e]
          | none => []
        some (dSet d hashKey newHash,
          errLog ++ ["Secret key " ++ secretKey
            ++ " is updated. It\x27s new hash key and value is " ++ hashKey
            ++ " and " ++ newHash ++ "."])

/-- `GenerateSecreteMemoSchema(secretKey)`: the companion schema entry housing the
hashed secret. -/
def GenerateSecreteMemoSchema (secretKey : String) : String × SchemaDef :=
  (calcSecretHashKey secretKey,
   { type := SchemaValueType.TypeString
     computed := true
     default := none
     description := "A bcrypted hash of the attribute \x27" ++ secretKey ++ "\x27"
     sensitive := true })

/-! ### Helper lemmas about the modelled primitives -/

theorem splitTag_replicate (n : Nat) (t : List Char) :
    splitTag (List.replicate n 'x' ++ '$' :: t) = some (n, t) := by
  induction n with
  | zero => simp [splitTag]
  | succ n ih =>
    rw [List.replicate_succ, List.cons_append]
    simp [splitTag, ih]

theorem decodeDigest_encodeDigest (n : Nat) (t : String) :
    decodeDigest (encodeDigest n t) = some (n, t) := by
  simp [decodeDigest, encodeDigest, splitTag_replicate]

theorem verify_encodeDigest (v : String) (s : Nat) :
    verify v (encodeDigest s v) = Except.ok true := by
  unfold verify
  rw [decodeDigest_encodeDigest]
  simp

theorem hash_ok_eq {v : String} {s : Nat} {d : String}
    (h : hash v s = Except.ok d) : d = encodeDigest s v := by
  unfold hash at h
  split at h
  · cases h
  · cases h
    rfl

theorem encodeDigest_ne_empty (s : Nat) (t : String) : encodeDigest s t ≠ "" := by
  intro h
  have h2 := decodeDigest_encodeDigest s t
  rw [h] at h2
  have h3 : decodeDigest "" = none := by decide
  rw [h3] at h2
  cases h2

theorem encodeDigest_inj_salt {s1 s2 : Nat} {t : String}
    (h : encodeDigest s1 t = encodeDigest s2 t) : s1 = s2 := by
  have h2 := congrArg decodeDigest h
  rw [decodeDigest_encodeDigest, decodeDigest_encodeDigest] at h2
  simpa using h2

theorem rehashDecision_isChanged (hf : String → Nat → Except ErrorKind String)
    (v : String) (s : Nat) : (rehashDecision hf v s).isChanged = true := by
  unfold rehashDecision
  split <;> rfl

theorem rehashDecision_error_ne (hf : String → Nat → Except ErrorKind String)
    (v : String) (s : Nat) :
    (rehashDecision hf v s).error ≠ some ErrorKind.MalformedDigest := by
  unfold rehashDecision
  split <;> simp

theorem evaluate_malformed_eq (v dg : String) (salt : Nat) (hne : dg ≠ "")
    (hmal : verify v dg = Except.error ErrorKind.MalformedDigest) :
    evaluate v dg salt = evaluate v "" salt := by
  unfold evaluate evaluateGen
  rw [if_neg hne, if_pos rfl, hmal]

/-! ### Concrete inputs used by the closed theorems -/

/-- A 73-character value, exceeding the modelled maximum input length of the
hashing primitive, so that hashing it fails with `HashingFailed`. -/
def v73 : String := String.mk (List.replicate 73 'a')

/-- State for the C1 scenario: changed secret `pw` holding `v73` and a previously
stored digest under `pw_hash`. -/
def dC1 : ResourceData :=
  ⟨fun key =>
    if key = "pw" then some (AttrValue.str v73)
    else if key = "pw_hash" then some (AttrValue.str "prior-digest") else none,
   fun _ => true⟩

/-- State for the C2 scenario: secret `pw` never hashed before (empty memo). -/
def dC2 : ResourceData :=
  ⟨fun key => if key = "pw_hash" then some (AttrValue.str "") else none, fun _ => true⟩

/-- The log line emitted by `DiffFuncSupressSecretChanged` in the C2 scenario. -/
def c2LogLine : String :=
  "\nk: pw, old: old-plain, new: s3cr3t, memoKey: pw_hash, memoValue: , isUnchanged: false\n"

/-- State whose companion hash field holds a non-string value. -/
def dC8bad : ResourceData :=
  ⟨fun key => if key = "pw_hash" then some AttrValue.other else some (AttrValue.str "x"),
   fun _ => true⟩

/-- State where the companion hash field is absent altogether. -/
def dC8absent : ResourceData :=
  ⟨fun key => if key = "pw" then some (AttrValue.str "v") else none, fun _ => true⟩

/-- Well-formed state satisfying the schema contract for key `pw`. -/
def dC8good : ResourceData :=
  ⟨fun key =>
    if key = "pw" then some (AttrValue.str "v")
    else if key = "pw_hash" then some (AttrValue.str "") else none,
   fun _ => true⟩

/-! ### Claim theorems -/

/-- Claim C1: on an unrecoverable hashing error the decision does force
`isChanged = true` (the diff-suppression hook returns `false`, i.e. not
suppressed), but the code violates the persistence half of the claim: at a
candidate exceeding the hashing primitive's input bound, `HelpFlattenSecret`
swallows the `HashingFailed` error and still executes `d.Set(hashKey, newHash)`,
overwriting the previously stored digest `"prior-digest"` with the empty string. -/
theorem c1_hashing_error_overwrites_stored_digest :
    (evaluate v73 "prior-digest" 5).error = some ErrorKind.HashingFailed
    ∧ (evaluate v73 "prior-digest" 5).isChanged = true
    ∧ DiffFuncSupressSecretChanged "pw" "" v73 dC1 5
        = some (false, ["Change forced. Swallowing err while using secret hashing: HashingFailed"])
    ∧ dGet dC1 "pw_hash" = some (AttrValue.str "prior-digest")
    ∧ (HelpFlattenSecret dC1 "pw" 5).map (fun p => dGet p.1 "pw_hash")
        = some (some (AttrValue.str "")) :=
  ⟨by decide, by decide, by decide, by decide, by decide⟩

/-- Claim C2: the code violates the claim: `DiffFuncSupressSecretChanged` logs the
plaintext candidate value (`old` and `new`) in its trace line.  At candidate
`"s3cr3t"` the emitted log line contains the plaintext as a substring. -/
theorem c2_plaintext_appears_in_log :
    DiffFuncSupressSecretChanged "pw" "old-plain" "s3cr3t" dC2 0 = some (false, [c2LogLine])
    ∧ ∃ a b, c2LogLine = a ++ "s3cr3t" ++ b :=
  ⟨by decide,
   ⟨"\nk: pw, old: old-plain, new: ",
    ", memoKey: pw_hash, memoValue: , isUnchanged: false\n", by decide⟩⟩

/-- Claim C3 counterexample: for the 73-character candidate `v73` hashing fails, so
`evaluate(v73, "")` returns `isChanged = true` but an empty `newDigest` (and a
surfaced `HashingFailed`), refuting "for every candidate value ... a non-empty new
digest that verifies against v". -/
theorem c3_counterexample_overlong_value :
    (evaluate v73 "" 0).isChanged = true
    ∧ (evaluate v73 "" 0).newDigest = ""
    ∧ (evaluate v73 "" 0).error = some ErrorKind.HashingFailed :=
  ⟨by decide, by decide, by decide⟩

/-- Claim C3 (amended): for every candidate `v`, `evaluate(v, "")` returns
`isChanged = true` and short-circuits without consulting the verify function (the
result is the same for every verify function); whenever hashing succeeds, the
returned digest is the hash result, non-empty, and verifies against `v`. -/
theorem c3_empty_digest_short_circuits (v : String) (salt : Nat) :
    (evaluate v "" salt).isChanged = true
    ∧ (∀ vf, evaluateGen hash vf v "" salt = evaluate v "" salt)
    ∧ ∀ dg, hash v salt = Except.ok dg →
        (evaluate v "" salt).newDigest = dg ∧ dg ≠ "" ∧ verify v dg = Except.ok true := by
  refine ⟨?_, ?_, ?_⟩
  · unfold evaluate evaluateGen
    rw [if_pos rfl]
    exact rehashDecision_isChanged hash v salt
  · intro vf
    unfold evaluate evaluateGen
    rw [if_pos rfl, if_pos rfl]
  · intro dg hdg
    have he := hash_ok_eq hdg
    subst he
    refine ⟨?_, encodeDigest_ne_empty salt v, verify_encodeDigest v salt⟩
    unfold evaluate evaluateGen rehashDecision
    rw [if_pos rfl, hdg]

/-- Claim C3 witness: the amended theorem instantiated at `"s3cr3t"` with salt 0. -/
theorem c3_witness :
    (evaluate "s3cr3t" "" 0).isChanged = true
    ∧ (evaluate "s3cr3t" "" 0).newDigest = "$2a$$s3cr3t"
    ∧ verify "s3cr3t" "$2a$$s3cr3t" = Except.ok true := by
  obtain ⟨h1, _h2, h3⟩ := c3_empty_digest_short_circuits "s3cr3t" 0
  obtain ⟨ha, _hb, hc⟩ := h3 "$2a$$s3cr3t" (by decide)
  exact ⟨h1, ha, hc⟩

/-- Claim C4: when the stored digest is a valid digest of the candidate,
`evaluate` returns `isChanged = false` and the stored digest itself, and no rehash
takes place: the result is the same for every hashing function and every salt. -/
theorem c4_match_keeps_stored_digest (v : String) (salt : Nat) (d : String)
    (h : hash v salt = Except.ok d) :
    (∀ hf salt2, evaluateGen hf verify v d salt2 = ⟨false, d, none⟩)
    ∧ ∀ salt2, evaluate v d salt2 = ⟨false, d, none⟩ := by
  have he := hash_ok_eq h
  subst he
  have hne := encodeDigest_ne_empty salt v
  have hv := verify_encodeDigest v salt
  constructor
  · intro hf salt2
    unfold evaluateGen
    rw [if_neg hne, hv]
  · intro salt2
    unfold evaluate evaluateGen
    rw [if_neg hne, hv]

/-- Claim C4 witness: re-evaluating `"s3cr3t"` against its stored digest with a
different salt leaves the digest byte-for-byte identical and reports no change. -/
theorem c4_witness :
    evaluate "s3cr3t" "$2a$$s3cr3t" 7 = ⟨false, "$2a$$s3cr3t", none⟩ :=
  (c4_match_keeps_stored_digest "s3cr3t" 0 "$2a$$s3cr3t" (by decide)).2 7

/-- Claim C5 counterexample: for the 73-character candidate `v73` and the malformed
stored digest `"zzz"`, the rehash fails, so `evaluate` surfaces
`error = some HashingFailed` — refuting "no error is surfaced to the caller" in
full generality (the `MalformedDigest` condition itself is still absorbed). -/
theorem c5_counterexample_overlong_value :
    verify v73 "zzz" = Except.error ErrorKind.MalformedDigest
    ∧ (evaluate v73 "zzz" 0).isChanged = true
    ∧ (evaluate v73 "zzz" 0).error = some ErrorKind.HashingFailed :=
  ⟨by decide, by decide, by decide⟩

/-- Claim C5 (amended): for every candidate `v` and non-empty stored digest `dg`
on which verify reports `MalformedDigest`, `evaluate` returns `isChanged = true`,
never surfaces `MalformedDigest`, and behaves exactly as if no prior record
existed; whenever the rehash succeeds no error at all is surfaced and the fresh
digest is returned. -/
theorem c5_malformed_digest_absorbed (v dg : String) (salt : Nat) (hne : dg ≠ "")
    (hmal : verify v dg = Except.error ErrorKind.MalformedDigest) :
    (evaluate v dg salt).isChanged = true
    ∧ (evaluate v dg salt).error ≠ some ErrorKind.MalformedDigest
    ∧ evaluate v dg salt = evaluate v "" salt
    ∧ ∀ nd, hash v salt = Except.ok nd →
        (evaluate v dg salt).error = none ∧ (evaluate v dg salt).newDigest = nd := by
  have heq := evaluate_malformed_eq v dg salt hne hmal
  refine ⟨?_, ?_, heq, ?_⟩
  · rw [heq]
    unfold evaluate evaluateGen
    rw [if_pos rfl]
    exact rehashDecision_isChanged hash v salt
  · rw [heq]
    unfold evaluate evaluateGen
    rw [if_pos rfl]
    exact rehashDecision_error_ne hash v salt
  · intro nd hnd
    rw [heq]
    unfold evaluate evaluateGen rehashDecision
    rw [if_pos rfl, hnd]
    exact ⟨rfl, rfl⟩

/-- Claim C5 witness: the amended theorem at candidate `"s3cr3t"` and malformed
stored digest `"zzz"`. -/
theorem c5_witness :
    (evaluate "s3cr3t" "zzz" 0).isChanged = true
    ∧ (evaluate "s3cr3t" "zzz" 0).error = none := by
  obtain ⟨h1, _h2, _h3, h4⟩ := c5_malformed_digest_absorbed "s3cr3t" "zzz" 0
    (by decide) (by decide)
  exact ⟨h1, (h4 "$2a$$s3cr3t" (by decide)).1⟩

/-- Claim C6: hashing round-trip — for every non-empty value `v`, if `hash v`
succeeds with digest `d` then `verify v d` returns a match with no error. -/
theorem c6_hash_verify_roundtrip (v : String) (salt : Nat) (hv : v ≠ "")
    (d : String) (h : hash v salt = Except.ok d) : verify v d = Except.ok true := by
  have he := hash_ok_eq h
  subst he
  exact verify_encodeDigest v salt

/-- Claim C6 witness: the round-trip at `"s3cr3t"` with salt 0. -/
theorem c6_witness : verify "s3cr3t" "$2a$$s3cr3t" = Except.ok true :=
  c6_hash_verify_roundtrip "s3cr3t" 0 (by decide) "$2a$$s3cr3t" (by decide)

/-- Claim C7: salting — two successful hashes of the same value under distinct
salts yield distinct digest strings, and each of the two digests verifies against
the value; digests are therefore compared only via `verify`, never by equality. -/
theorem c7_salted_digests_differ (v : String) (s1 s2 : Nat) (hne : s1 ≠ s2)
    (d1 d2 : String) (h1 : hash v s1 = Except.ok d1) (h2 : hash v s2 = Except.ok d2) :
    d1 ≠ d2 ∧ verify v d1 = Except.ok true ∧ verify v d2 = Except.ok true := by
  have e1 := hash_ok_eq h1
  have e2 := hash_ok_eq h2
  subst e1
  subst e2
  refine ⟨?_, verify_encodeDigest v s1, verify_encodeDigest v s2⟩
  intro hc
  exact hne (encodeDigest_inj_salt hc)

/-- Claim C7 witness: two hashes of `"s3cr3t"` under salts 0 and 1. -/
theorem c7_witness :
    ("$2a$$s3cr3t" : String) ≠ "$2a$x$s3cr3t"
    ∧ verify "s3cr3t" "$2a$$s3cr3t" = Except.ok true
    ∧ verify "s3cr3t" "$2a$x$s3cr3t" = Except.ok true :=
  c7_salted_digests_differ "s3cr3t" 0 1 (by decide) "$2a$$s3cr3t" "$2a$x$s3cr3t"
    (by decide) (by decide)

/-- Claim C8 counterexample: the entry points are NOT total when the companion
hash field is not a string or is absent — the unchecked Go type assertion
`d.Get(key).(string)` panics, modelled as `none`: `DiffFuncSupressSecretChanged`
on a state whose `pw_hash` holds a non-string value, and `HelpFlattenSecret` on a
state with no `pw_hash` at all, both abort. -/
theorem c8_counterexample_type_assertion_panics :
    DiffFuncSupressSecretChanged "pw" "a" "b" dC8bad 0 = none
    ∧ (HelpFlattenSecret dC8absent "pw" 0).isSome = false :=
  ⟨by decide, by decide⟩

/-- Claim C8 (amended): `hash`, `verify` and `evaluate` are total functions that
report every failure as a value; the diff-suppression and flatten entry points
return normally (no panic) whenever the secret attribute and its companion hash
field hold string values, as the schema contract guarantees. -/
theorem c8_entry_points_total_on_string_state (k old new : String)
    (d : ResourceData) (salt : Nat) (m s : String)
    (hm : dGet d (calcSecretHashKey k) = some (AttrValue.str m))
    (hs : dGet d k = some (AttrValue.str s)) :
    (DiffFuncSupressSecretChanged k old new d salt).isSome = true
    ∧ (HelpFlattenSecret d k salt).isSome = true := by
  constructor
  · unfold DiffFuncSupressSecretChanged
    simp only [hm, typeAssertString]
    split <;> rfl
  · unfold HelpFlattenSecret
    by_cases hc : hasChange d k = false
    · rw [if_pos hc]
      rfl
    · rw [if_neg hc]
      simp only [hm, hs, typeAssertString]
      rfl

/-- Claim C8 witness: the amended theorem at a well-formed state for key `pw`. -/
theorem c8_witness :
    (DiffFuncSupressSecretChanged "pw" "o" "n" dC8good 3).isSome = true
    ∧ (HelpFlattenSecret dC8good "pw" 3).isSome = true :=
  c8_entry_points_total_on_string_state "pw" "o" "n" dC8good 3 "" "v"
    (by decide) (by decide)

/-- Claim C9: for every secret attribute name, the generated companion schema
entry is keyed exactly `name ++ "_hash"` and declares a computed, sensitive,
string-typed attribute with no default. -/
theorem c9_companion_schema_shape (secretKey : String) :
    (GenerateSecreteMemoSchema secretKey).1 = secretKey ++ "_hash"
    ∧ (GenerateSecreteMemoSchema secretKey).2.type = SchemaValueType.TypeString
    ∧ (GenerateSecreteMemoSchema secretKey).2.computed = true
    ∧ (GenerateSecreteMemoSchema secretKey).2.sensitive = true
    ∧ (GenerateSecreteMemoSchema secretKey).2.default = none :=
  ⟨rfl, rfl, rfl, rfl, rfl⟩

/-- Claim C10: the case-insensitivity diff suppressor returns true exactly when
the two strings agree after lowercasing; the suppression relation is reflexive and
symmetric in `old` and `new`. -/
theorem c10_case_suppressor_lower_eq (k old new : String) (d : ResourceData) :
    (DiffFuncSupressCaseSensitivity k old new d = true ↔ goToLower old = goToLower new)
    ∧ DiffFuncSupressCaseSensitivity k old old d = true
    ∧ DiffFuncSupressCaseSensitivity k old new d = DiffFuncSupressCaseSensitivity k new old d := by
  unfold DiffFuncSupressCaseSensitivity
  refine ⟨?_, ?_, ?_⟩
  · by_cases h : goToLower old = goToLower new <;> simp [h]
  · simp
  · by_cases h : goToLower old = goToLower new
    · simp [h]
    · have h2 : goToLower new ≠ goToLower old := fun hx => h hx.symm
      simp [h, h2]

end AzDo
